import Mathlib

/-!
Verification of the bootstrap launcher `start_server.py`.

The launcher is a 25-line script that
1. unconditionally applies `os.environ.setdefault("STARLETTE_ALLOWED_HOSTS", "*")`,
2. when run as the program entry point (`__name__ == "__main__"`):
   changes the working directory to the directory containing the script,
   imports `shopping_cart_python.main`, and
   re-executes `shopping_cart_python/main.py` as raw text when the loaded
   module's `__name__` attribute equals `"__main__"`.

We embed the observable behaviour as an event trace over a process state
(environment map, current working directory, imported modules, executed
files).  The trace is computed from a `LaunchConfig` describing the facts
the script branches on: the launcher module's own `__name__`, the absolute
directory containing the launcher file, whether the target module imports
successfully, whether the loaded module carries a `__name__` attribute and
what it is, and the command-line arguments (which the script never reads).
-/

/-- A process environment: an association list from variable names to values. -/
abbrev Env : Type := List (String × String)

/-- Look up a variable in the environment; the first binding wins. -/
def envLookup : Env → String → Option String
  | [], _ => none
  | (k, v) :: rest, key => if k = key then some v else envLookup rest key

/-- `os.environ.setdefault k v`: bind `k` to `v` only when `k` is absent,
returning the updated environment. -/
def setdefault (e : Env) (k v : String) : Env :=
  match envLookup e k with
  | some _ => e
  | none => e ++ [(k, v)]

/-- The environment variable the launcher defaults. -/
def hostsKey : String := "STARLETTE_ALLOWED_HOSTS"

/-- The dotted module path the launcher imports. -/
def targetModule : String := "shopping_cart_python.main"

/-- The sibling file the launcher re-executes as raw text. -/
def targetFile : String := "shopping_cart_python/main.py"

/-- The launcher's configure-environment step:
`os.environ.setdefault("STARLETTE_ALLOWED_HOSTS", "*")`. -/
def configureEnvironment (e : Env) : Env :=
  setdefault e hostsKey "*"

/-- Observable effects performed by the launcher. -/
inductive Event : Type where
  | setEnvDefault : String → String → Event
  | chdir : String → Event
  | importModule : String → Event
  | execFile : String → Event
  deriving DecidableEq, Repr

/-- The facts `start_server.py` branches on, plus the arguments it ignores. -/
structure LaunchConfig : Type where
  /-- The `__name__` of the `start_server` module itself
  (`"__main__"` when run as the program entry point). -/
  launcherName : String
  /-- `os.path.dirname(os.path.abspath(__file__))`: the absolute directory
  containing the launcher file, a fact of the filesystem. -/
  scriptDir : String
  /-- Whether `import shopping_cart_python.main` succeeds. -/
  moduleAvailable : Bool
  /-- Whether the loaded module has a `__name__` attribute
  (`hasattr(main_module, '__name__')`). -/
  mainModuleHasName : Bool
  /-- The `__name__` attribute of the loaded module. -/
  mainModuleName : String
  /-- Command-line arguments; the script never inspects them. -/
  argv : List String
  deriving DecidableEq, Repr

/-- Process state acted on by the launcher. -/
structure ProcState : Type where
  env : Env
  cwd : String
  imported : List String
  executed : List String
  deriving DecidableEq, Repr

/-- The fatal errors the launcher can terminate with. -/
inductive LaunchError : Type where
  | importError : LaunchError
  deriving DecidableEq, Repr

/-- The sequence of effects `start_server.py` performs, line by line:
the environment default is unconditional; the chdir, import and conditional
re-execution sit under the `__main__` guard; a failing import ends the
trace after the chdir. -/
def startServerTrace (cfg : LaunchConfig) : List Event :=
  [Event.setEnvDefault hostsKey "*"] ++
    if cfg.launcherName = "__main__" then
      [Event.chdir cfg.scriptDir] ++
        if cfg.moduleAvailable then
          [Event.importModule targetModule] ++
            if cfg.mainModuleHasName ∧ cfg.mainModuleName = "__main__" then
              [Event.execFile targetFile]
            else []
        else []
    else []

/-- Apply one effect to the process state. -/
def applyEvent (s : ProcState) : Event → ProcState
  | Event.setEnvDefault k v => { s with env := setdefault s.env k v }
  | Event.chdir d => { s with cwd := d }
  | Event.importModule m => { s with imported := s.imported ++ [m] }
  | Event.execFile f => { s with executed := s.executed ++ [f] }

/-- Apply a sequence of effects in order. -/
def runEvents : ProcState → List Event → ProcState
  | s, [] => s
  | s, e :: rest => runEvents (applyEvent s e) rest

/-- Run `start_server.py` from initial state `s0`: the final process state
together with the unrecovered error, if any (the import fails exactly when
the target module is unavailable and the guard was taken). -/
def startServer (cfg : LaunchConfig) (s0 : ProcState) : ProcState × Option LaunchError :=
  (runEvents s0 (startServerTrace cfg),
   if cfg.launcherName = "__main__" ∧ cfg.moduleAvailable = false then
     some LaunchError.importError
   else none)

/-- Position of each effect kind in the script's source order. -/
def rank : Event → Nat
  | Event.setEnvDefault _ _ => 0
  | Event.chdir _ => 1
  | Event.importModule _ => 2
  | Event.execFile _ => 3

/-- Does this effect write the environment map? -/
def writesEnv : Event → Bool
  | Event.setEnvDefault _ _ => true
  | _ => false

/-- Does this effect run the top-level statements of the target module
(either by importing it or by re-executing its file)? -/
def runsTargetTopLevel : Event → Bool
  | Event.importModule m => m == targetModule
  | Event.execFile f => f == targetFile
  | _ => false

/-- A sample configuration: run as entry point, import succeeds, loaded
module reports `__name__ == "__main__"`. -/
def cfgMainOk : LaunchConfig :=
  { launcherName := "__main__", scriptDir := "/srv/app", moduleAvailable := true,
    mainModuleHasName := true, mainModuleName := "__main__", argv := [] }

/-- A sample initial state with the hosts variable already bound. -/
def stPreset : ProcState :=
  { env := [(hostsKey, "example.com")], cwd := "/home/caller", imported := [], executed := [] }

/-- A sample initial state with the hosts variable unset. -/
def stUnset : ProcState :=
  { env := [("PATH", "/usr/bin")], cwd := "/home/caller", imported := [], executed := [] }

-- Helper lemmas --------------------------------------------------------------

theorem envLookup_append_self (e : Env) (k v : String)
    (h : envLookup e k = none) : envLookup (e ++ [(k, v)]) k = some v := by
  induction e with
  | nil => simp [envLookup]
  | cons p rest ih =>
    obtain ⟨k', v'⟩ := p
    by_cases hk : k' = k
    · simp [envLookup, hk] at h
    · simp [envLookup, hk] at h ⊢
      exact ih h

theorem setdefault_of_some (e : Env) (k v d : String)
    (h : envLookup e k = some v) : setdefault e k d = e := by
  unfold setdefault
  rw [h]

theorem setdefault_of_none (e : Env) (k d : String)
    (h : envLookup e k = none) : envLookup (setdefault e k d) k = some d := by
  unfold setdefault
  rw [h]
  exact envLookup_append_self e k d h

/-- The launcher's effect on the environment component, in every branch,
is exactly the configure-environment step. -/
theorem startServer_env (cfg : LaunchConfig) (s0 : ProcState) :
    (startServer cfg s0).1.env = configureEnvironment s0.env := by
  unfold startServer startServerTrace
  split_ifs <;> simp [runEvents, applyEvent, configureEnvironment]

/-- When the `__main__` guard is taken, the final working directory is the
script directory in every branch. -/
theorem startServer_cwd_main (cfg : LaunchConfig) (s0 : ProcState)
    (h : cfg.launcherName = "__main__") :
    (startServer cfg s0).1.cwd = cfg.scriptDir := by
  unfold startServer startServerTrace
  rw [if_pos h]
  split_ifs <;> simp [runEvents, applyEvent]

/-- Both effects of import failure stay applied; sample failing configuration. -/
def cfgMainFail : LaunchConfig :=
  { launcherName := "__main__", scriptDir := "/srv/app", moduleAvailable := false,
    mainModuleHasName := true, mainModuleName := targetModule, argv := [] }

/-- Sample configuration for a normal import: the loaded module's `__name__`
is its dotted module path. -/
def cfgMainImported : LaunchConfig :=
  { launcherName := "__main__", scriptDir := "/srv/app", moduleAvailable := true,
    mainModuleHasName := true, mainModuleName := targetModule, argv := [] }

/-- Sample configuration where the launcher module is imported, not run. -/
def cfgImportedLauncher : LaunchConfig :=
  { launcherName := "start_server", scriptDir := "/srv/app", moduleAvailable := true,
    mainModuleHasName := true, mainModuleName := targetModule, argv := [] }

/-- Events `a` then `b` respect the script's source order. -/
def sourceOrdered (a b : Event) : Prop := rank a < rank b

-- Claim theorems -------------------------------------------------------------

/-- Claim C1: if `STARLETTE_ALLOWED_HOSTS` is already bound to `v`, the
configure-environment step (and the whole launcher run) leaves it bound
to `v`; it is never overwritten. -/
theorem hosts_default_never_overwrites (cfg : LaunchConfig) (s0 : ProcState) (v : String)
    (h : envLookup s0.env hostsKey = some v) :
    envLookup (configureEnvironment s0.env) hostsKey = some v ∧
    envLookup (startServer cfg s0).1.env hostsKey = some v := by
  have hc : configureEnvironment s0.env = s0.env := setdefault_of_some _ _ _ _ h
  refine ⟨?_, ?_⟩
  · rw [hc]; exact h
  · rw [startServer_env, hc]; exact h

/-- Witness for C1 at the scenario `STARLETTE_ALLOWED_HOSTS=example.com`. -/
theorem hosts_default_never_overwrites_witness :
    envLookup stPreset.env hostsKey = some "example.com" ∧
    (envLookup (configureEnvironment stPreset.env) hostsKey = some "example.com" ∧
     envLookup (startServer cfgMainOk stPreset).1.env hostsKey = some "example.com") :=
  ⟨by decide, hosts_default_never_overwrites cfgMainOk stPreset "example.com" (by decide)⟩

/-- Claim C2: if `STARLETTE_ALLOWED_HOSTS` is unset, after the
configure-environment step (and after the whole launcher run) it equals
the string `"*"`. -/
theorem hosts_default_applied_when_unset (cfg : LaunchConfig) (s0 : ProcState)
    (h : envLookup s0.env hostsKey = none) :
    envLookup (configureEnvironment s0.env) hostsKey = some "*" ∧
    envLookup (startServer cfg s0).1.env hostsKey = some "*" := by
  refine ⟨setdefault_of_none _ _ _ h, ?_⟩
  rw [startServer_env]
  exact setdefault_of_none _ _ _ h

/-- Witness for C2 at a state where the variable is unset. -/
theorem hosts_default_applied_when_unset_witness :
    envLookup stUnset.env hostsKey = none ∧
    (envLookup (configureEnvironment stUnset.env) hostsKey = some "*" ∧
     envLookup (startServer cfgMainOk stUnset).1.env hostsKey = some "*") :=
  ⟨by decide, hosts_default_applied_when_unset cfgMainOk stUnset (by decide)⟩

/-- Claim C3: after the launcher (run as the entry point) establishes the
working directory, the current working directory equals the absolute
directory containing the launcher file, independently of the caller's
original working directory. -/
theorem working_directory_is_script_dir (cfg : LaunchConfig) (s0 s1 : ProcState)
    (h : cfg.launcherName = "__main__") :
    (startServer cfg s0).1.cwd = cfg.scriptDir ∧
    (startServer cfg s0).1.cwd = (startServer cfg s1).1.cwd := by
  refine ⟨startServer_cwd_main cfg s0 h, ?_⟩
  rw [startServer_cwd_main cfg s0 h, startServer_cwd_main cfg s1 h]

/-- Witness for C3 with two different initial working directories. -/
theorem working_directory_is_script_dir_witness :
    cfgMainOk.launcherName = "__main__" ∧
    ((startServer cfgMainOk stPreset).1.cwd = cfgMainOk.scriptDir ∧
     (startServer cfgMainOk stPreset).1.cwd = (startServer cfgMainOk stUnset).1.cwd) :=
  ⟨rfl, working_directory_is_script_dir cfgMainOk stPreset stUnset rfl⟩

/-- Claim C4: after the import, the file `shopping_cart_python/main.py` is
re-executed exactly when the loaded module's identity marks it as the
program entry point (it has a `__name__` attribute equal to `"__main__"`). -/
theorem reexecution_condition (cfg : LaunchConfig)
    (h1 : cfg.launcherName = "__main__") (h2 : cfg.moduleAvailable = true) :
    Event.execFile targetFile ∈ startServerTrace cfg ↔
      (cfg.mainModuleHasName = true ∧ cfg.mainModuleName = "__main__") := by
  by_cases h3 : (cfg.mainModuleHasName ∧ cfg.mainModuleName = "__main__") <;>
    simp [startServerTrace, h1, h2, h3]

/-- Witness for C4 at a configuration whose loaded module reports
`__name__ == "__main__"`. -/
theorem reexecution_condition_witness :
    cfgMainOk.launcherName = "__main__" ∧ cfgMainOk.moduleAvailable = true ∧
    (Event.execFile targetFile ∈ startServerTrace cfgMainOk ↔
      (cfgMainOk.mainModuleHasName = true ∧ cfgMainOk.mainModuleName = "__main__")) :=
  ⟨rfl, rfl, reexecution_condition cfgMainOk rfl rfl⟩

/-- Claim C5: when the import of the target module fails, the launcher
terminates with the error unrecovered, and the environment default and the
working-directory change remain applied. -/
theorem import_failure_keeps_side_effects (cfg : LaunchConfig) (s0 : ProcState)
    (h1 : cfg.launcherName = "__main__") (h2 : cfg.moduleAvailable = false) :
    (startServer cfg s0).2 = some LaunchError.importError ∧
    (startServer cfg s0).1.env = configureEnvironment s0.env ∧
    (startServer cfg s0).1.cwd = cfg.scriptDir := by
  refine ⟨?_, startServer_env cfg s0, startServer_cwd_main cfg s0 h1⟩
  simp [startServer, h1, h2]

/-- Witness for C5 at a configuration whose target module is missing. -/
theorem import_failure_keeps_side_effects_witness :
    cfgMainFail.launcherName = "__main__" ∧ cfgMainFail.moduleAvailable = false ∧
    ((startServer cfgMainFail stUnset).2 = some LaunchError.importError ∧
     (startServer cfgMainFail stUnset).1.env = configureEnvironment stUnset.env ∧
     (startServer cfgMainFail stUnset).1.cwd = cfgMainFail.scriptDir) :=
  ⟨rfl, rfl, import_failure_keeps_side_effects cfgMainFail stUnset rfl rfl⟩

/-- Claim C6: run as the entry point, the launcher's effects occur in source
order — environment default, then chdir, then import, then conditional
re-execution; no step precedes an earlier one. -/
theorem launcher_effect_order (cfg : LaunchConfig)
    (h : cfg.launcherName = "__main__") :
    (startServerTrace cfg).Pairwise sourceOrdered := by
  unfold startServerTrace
  split_ifs <;> simp [List.pairwise_cons, sourceOrdered, rank]

/-- Witness for C6 at the full run. -/
theorem launcher_effect_order_witness :
    cfgMainOk.launcherName = "__main__" ∧
    (startServerTrace cfgMainOk).Pairwise sourceOrdered :=
  ⟨rfl, launcher_effect_order cfgMainOk rfl⟩

/-- Claim C7: the launcher writes `STARLETTE_ALLOWED_HOSTS` at most once, as
its very first effect, and no later effect of the trace writes the
environment; the net effect on the environment is exactly the one
setdefault. -/
theorem hosts_written_once_at_start (cfg : LaunchConfig) (s0 : ProcState) :
    (∃ rest, startServerTrace cfg = Event.setEnvDefault hostsKey "*" :: rest ∧
        ∀ e ∈ rest, writesEnv e = false) ∧
    (startServer cfg s0).1.env = configureEnvironment s0.env := by
  refine ⟨?_, startServer_env cfg s0⟩
  unfold startServerTrace
  split_ifs <;> exact ⟨_, rfl, by intro e he; fin_cases he <;> rfl⟩

/-- Claim C8: under a normal import the loaded module's `__name__` is its
dotted path `shopping_cart_python.main`, not `__main__`, so the re-execution
branch is unreachable and the target's top-level statements run exactly
once, during the import. -/
theorem normal_import_runs_target_once (cfg : LaunchConfig)
    (h1 : cfg.launcherName = "__main__") (h2 : cfg.moduleAvailable = true)
    (h3 : cfg.mainModuleName = targetModule) :
    Event.execFile targetFile ∉ startServerTrace cfg ∧
    (startServerTrace cfg).countP runsTargetTopLevel = 1 := by
  have hne : cfg.mainModuleName ≠ "__main__" := by
    rw [h3]; decide
  have h4 : ¬(cfg.mainModuleHasName ∧ cfg.mainModuleName = "__main__") := by
    rintro ⟨-, hc⟩; exact hne hc
  constructor
  · simp [startServerTrace, h1, h2, h4]
  · simp [startServerTrace, h1, h2, h4, List.countP_cons, runsTargetTopLevel]

/-- Witness for C8 at a normally imported target module. -/
theorem normal_import_runs_target_once_witness :
    cfgMainImported.launcherName = "__main__" ∧
    cfgMainImported.moduleAvailable = true ∧
    cfgMainImported.mainModuleName = targetModule ∧
    (Event.execFile targetFile ∉ startServerTrace cfgMainImported ∧
     (startServerTrace cfgMainImported).countP runsTargetTopLevel = 1) :=
  ⟨rfl, rfl, rfl, normal_import_runs_target_once cfgMainImported rfl rfl rfl⟩

/-- Claim C9: when the launcher module is imported rather than run as the
main program, its only effect is the environment default: the trace is the
single setdefault event, the working directory, imported modules and
executed files are unchanged, and no error arises. -/
theorem imported_launcher_only_sets_env (cfg : LaunchConfig) (s0 : ProcState)
    (h : cfg.launcherName ≠ "__main__") :
    startServerTrace cfg = [Event.setEnvDefault hostsKey "*"] ∧
    (startServer cfg s0).1.env = configureEnvironment s0.env ∧
    (startServer cfg s0).1.cwd = s0.cwd ∧
    (startServer cfg s0).1.imported = s0.imported ∧
    (startServer cfg s0).1.executed = s0.executed ∧
    (startServer cfg s0).2 = none := by
  have ht : startServerTrace cfg = [Event.setEnvDefault hostsKey "*"] := by
    simp [startServerTrace, h]
  refine ⟨ht, startServer_env cfg s0, ?_, ?_, ?_, ?_⟩ <;>
    simp [startServer, ht, runEvents, applyEvent, h]

/-- Witness for C9 at an imported launcher module. -/
theorem imported_launcher_only_sets_env_witness :
    cfgImportedLauncher.launcherName ≠ "__main__" ∧
    (startServerTrace cfgImportedLauncher = [Event.setEnvDefault hostsKey "*"] ∧
     (startServer cfgImportedLauncher stPreset).1.env = configureEnvironment stPreset.env ∧
     (startServer cfgImportedLauncher stPreset).1.cwd = stPreset.cwd ∧
     (startServer cfgImportedLauncher stPreset).1.imported = stPreset.imported ∧
     (startServer cfgImportedLauncher stPreset).1.executed = stPreset.executed ∧
     (startServer cfgImportedLauncher stPreset).2 = none) :=
  ⟨by decide, imported_launcher_only_sets_env cfgImportedLauncher stPreset (by decide)⟩

/-- Claim C10: the launcher never inspects its command-line arguments: two
invocations differing only in `argv` produce the same trace, the same final
state and the same error. -/
theorem argv_independent (cfg : LaunchConfig) (a b : List String) (s0 : ProcState) :
    startServerTrace { cfg with argv := a } = startServerTrace { cfg with argv := b } ∧
    startServer { cfg with argv := a } s0 = startServer { cfg with argv := b } s0 :=
  ⟨rfl, rfl⟩

/-- Witness for C10 at two concrete argument vectors. -/
theorem argv_independent_witness :
    startServerTrace { cfgMainOk with argv := ["--port", "80"] } =
      startServerTrace { cfgMainOk with argv := [] } ∧
    startServer { cfgMainOk with argv := ["--port", "80"] } stUnset =
      startServer { cfgMainOk with argv := [] } stUnset :=
  argv_independent cfgMainOk ["--port", "80"] [] stUnset
